import Mathlib

/-!
Verification of the github-cdn-pages URL router.

The repository holds two implementations of the same stateless GitHub CDN
proxy: a Cloudflare Pages middleware (`functions/_middleware.js`, export
`onRequest`) and a Cloudflare Worker (`src/index.js`, export default
`fetch`).  Both classify an inbound URL path into one of several shapes,
derive a single upstream GitHub URL, perform one fetch, and relay the
result.  This file embeds the path-classification and response-relay logic
of both implementations over `List Char` strings and proves the frozen
claims about them.

Paths come from `new URL(request.url).pathname`; JavaScript string
operations are modelled as follows: `s.slice(n)`/`s.substring(n)` is
`List.drop n`, `s.split('/')` is `splitOn '/'`, `arr.join('/')` is
`joinSlash`, `s.startsWith(p)` is `isPre p s`, `s.includes(p)` is
`containsSub p s`, `s.indexOf(p)` is `findSub p s` (`none` for -1).
-/

namespace Cdn

set_option maxRecDepth 1000000

/-- Strings are modelled as lists of characters. -/
abbrev Str := List Char

/-- Character list of a Lean string literal. -/
def str (x : String) : Str := x.data

/-- JavaScript `target.startsWith(pat)`: `isPre pat target`. -/
def isPre : Str → Str → Bool
  | [], _ => true
  | _ :: _, [] => false
  | p :: ps, b :: bs => if p = b then isPre ps bs else false

/-- Helper for `splitOn`: returns the first field and the remaining fields. -/
def splitF (c : Char) : Str → Str × List Str
  | [] => ([], [])
  | x :: xs =>
      let r := splitF c xs
      if x = c then ([], r.1 :: r.2) else (x :: r.1, r.2)

/-- JavaScript `s.split(c)` for a one-character separator: always returns a
nonempty list of fields; `"".split('/')` is `[""]`. -/
def splitOn (c : Char) (l : Str) : List Str := (splitF c l).1 :: (splitF c l).2

/-- JavaScript `arr.join('/')`. -/
def joinSlash : List Str → Str
  | [] => []
  | [x] => x
  | x :: y :: rest => x ++ '/' :: joinSlash (y :: rest)

/-- JavaScript `s.indexOf(pat)`: index of the first occurrence of `pat` as a
substring, `none` when `pat` does not occur (JavaScript returns -1). -/
def findSub (pat : Str) : Str → Option Nat
  | [] => if pat = [] then some 0 else none
  | b :: bs => if isPre pat (b :: bs) then some 0 else (findSub pat bs).map (· + 1)

/-- JavaScript `s.includes(pat)`. -/
def containsSub (pat l : Str) : Bool := (findSub pat l).isSome

/-- The raw-content URL template shared by the `/raw/`, `/gh/` and blob
branches of both implementations:
`https://raw.githubusercontent.com/${username}/${repo}/${branch}/${filePath}`. -/
def rawUrl (username repo branch filePath : Str) : Str :=
  str "https://raw.githubusercontent.com/" ++ username ++ str "/" ++ repo
    ++ str "/" ++ branch ++ str "/" ++ filePath

/-- The release-download URL template of both implementations:
`https://github.com/${username}/${repo}/releases/download/${releasePathAndFile}`. -/
def releaseUrl (username repo releasePathAndFile : Str) : Str :=
  str "https://github.com/" ++ username ++ str "/" ++ repo
    ++ str "/releases/download/" ++ releasePathAndFile

/-- Result of classifying one inbound path: either a single upstream fetch
(with the branch-specific cache duration in seconds, default content type
and error-message prefix, and whether the transport-error body echoes the
inbound path), or the informational root page, or a 400 with a fixed body. -/
inductive RouteResult
  | fetchUrl (url : Str) (cacheSeconds : Nat) (defaultContentType : Str)
      (errPre : Str) (errIncludesPath : Bool)
  | page
  | badRequest (body : Str)
  deriving DecidableEq

/-- The four usage lines shared by both final 400 bodies. -/
def usageFormats : Str :=
  str "1. /gh/username/repo/branch/file_path\n2. /raw/username/repo/branch/file_path\n3. /releases/username/repo/download/tag/filename\n4. /https://raw.githubusercontent.com/username/repo/branch/file_path"

/-- Final 400 body of the middleware (`_middleware.js` lines 198-203). -/
def middlewareUsage : Str :=
  str "Invalid path. Use one of the following formats:\n" ++ usageFormats

/-- Final 400 body of the worker (`index.js` lines 424-429): echoes the path. -/
def workerUsage (path : Str) : Str :=
  str "Invalid path: " ++ path ++ str "\n\nUse one of the following formats:\n" ++ usageFormats

/-- Body of the 400 returned by the `/gh/` branch when fewer than three
segments follow the prefix (identical in both implementations). -/
def ghShortUsage : Str :=
  str "Invalid path format. Use /gh/username/repo/branch/file_path"

/-- Functional translation of the release-download regular expression
`^\/releases\/([^\/]+)\/([^\/]+)\/download\/(.+)` applied by both
implementations: the two `[^\/]+` groups are the maximal nonempty slash-free
segments after `/releases/`, then the literal `download/`, then a nonempty
remainder captured verbatim (slashes included).  Pathnames contain no line
terminators, so `.` behaves as any-character here. -/
def matchReleases (path : Str) : Option (Str × Str × Str) :=
  if isPre (str "/releases/") path then
    let rest := path.drop 10
    let username := rest.takeWhile (fun c => c ≠ '/')
    match rest.drop username.length with
    | '/' :: r2 =>
        if username = [] then none
        else
          let repo := r2.takeWhile (fun c => c ≠ '/')
          match r2.drop repo.length with
          | '/' :: r4 =>
              if repo = [] then none
              else if isPre (str "download/") r4 ∧ r4.drop 9 ≠ [] then
                some (username, repo, r4.drop 9)
              else none
          | _ => none
    | _ => none
  else none

/-- Release-download branch, identical in `_middleware.js` lines 21-25 and
`index.js` lines 243-247. -/
def releasesRoute (path : Str) : Option RouteResult :=
  match matchReleases path with
  | some (username, repo, releasePathAndFile) =>
      some (.fetchUrl (releaseUrl username repo releasePathAndFile)
        86400 (str "application/octet-stream") (str "Error fetching release content: ") false)
  | none => none

/-- Raw short-form branch, identical in `_middleware.js` lines 61-69 and
`index.js` lines 284-292.  A `/raw/` path with fewer than three segments
after the prefix falls through (`none`), it is not answered here. -/
def rawRoute (path : Str) : Option RouteResult :=
  if isPre (str "/raw/") path then
    let parts := splitOn '/' (path.drop 5)
    if 3 ≤ parts.length then
      some (.fetchUrl
        (rawUrl (parts.getD 0 []) (parts.getD 1 []) (parts.getD 2 []) (joinSlash (parts.drop 3)))
        1800 (str "text/plain") (str "Error fetching raw content: ") false)
    else none
  else none

/-- Direct raw-URL branch of the middleware only (`_middleware.js` lines
105-111): the path must begin with `/https://raw.githubusercontent.com/` or
`/http://raw.githubusercontent.com/` (regex `^\/https?:\/\/raw\.githubusercontent\.com\/`).
The inner conditional chain is kept as written; under the guard the path
always starts with `/http`, so the URL is the path with its leading slash
removed. -/
def directRoute (path : Str) : Option RouteResult :=
  if isPre (str "/https://raw.githubusercontent.com/") path
      ∨ isPre (str "/http://raw.githubusercontent.com/") path then
    let githubUrl :=
      if isPre (str "//") path then str "https:" ++ path
      else if isPre (str "/http") path then path.drop 1
      else str "https://raw.githubusercontent.com" ++ path
    some (.fetchUrl githubUrl 1800 (str "text/plain") (str "Error fetching content: ") false)
  else none

/-- The `/gh/` short-form branch, identical in `_middleware.js` lines
145-164 and `index.js` lines 328-347: fewer than three segments is answered
with a 400 inside the branch; a third segment equal to `blob` followed by at
least one more segment is discarded and field positions shift. -/
def ghRoute (path : Str) : Option RouteResult :=
  if isPre (str "/gh/") path then
    let parts := splitOn '/' (path.drop 4)
    if parts.length < 3 then some (.badRequest ghShortUsage)
    else
      let username := parts.getD 0 []
      let repo := parts.getD 1 []
      let branch :=
        if parts.getD 2 [] = str "blob" ∧ 3 < parts.length then parts.getD 3 []
        else parts.getD 2 []
      let filePath :=
        if parts.getD 2 [] = str "blob" ∧ 3 < parts.length then joinSlash (parts.drop 4)
        else joinSlash (parts.drop 3)
      some (.fetchUrl (rawUrl username repo branch filePath)
        1800 (str "text/plain") (str "Error fetching content: ") false)
  else none

/-- Path classification of the Pages middleware `onRequest`
(`_middleware.js`): root page first, then release downloads, then `/raw/`,
then the anchored direct raw-URL rule, then `/gh/`, else 400. -/
def onRequestRoute (path : Str) : RouteResult :=
  if path = str "/" ∨ path = [] then .page
  else match releasesRoute path with
  | some res => res
  | none =>
    match rawRoute path with
    | some res => res
    | none =>
      match directRoute path with
      | some res => res
      | none =>
        match ghRoute path with
        | some res => res
        | none => .badRequest middlewareUsage

/-- Path classification of the Worker `fetch` (`index.js`): the embedded
raw-URL rule first (`path.includes('/https://raw.githubusercontent.com/')`,
extracting `path.substring(path.indexOf('/https://') + 1)`), then release
downloads, then `/raw/`, then `/gh/`, then the root usage page, else 400.
When `indexOf` would return -1, `substring(0)` is the whole path; that case
is unreachable under the guard. -/
def workerFetchRoute (path : Str) : RouteResult :=
  if containsSub (str "/https://raw.githubusercontent.com/") path then
    let githubUrl :=
      match findSub (str "/https://") path with
      | some i => path.drop (i + 1)
      | none => path
    .fetchUrl githubUrl 1800 (str "text/plain") (str "Error fetching content: ") true
  else match releasesRoute path with
  | some res => res
  | none =>
    match rawRoute path with
    | some res => res
    | none =>
      match ghRoute path with
      | some res => res
      | none =>
        if path = str "/" ∨ path = [] then .page
        else .badRequest (workerUsage path)

/-- What the upstream fetch returned: HTTP status, reason phrase, the
`content-type` header when present, and the body bytes. -/
structure UpstreamResponse where
  status : Nat
  statusText : Str
  contentType : Option Str
  body : Str
  deriving DecidableEq

/-- Outcome of one `fetch(url, ...)` call: a response, or a thrown
transport-level error carrying `error.message`. -/
inductive FetchOutcome
  | success (resp : UpstreamResponse)
  | failure (message : Str)
  deriving DecidableEq

/-- A response produced by either handler: status, the headers the code
explicitly sets, and the body. -/
structure HttpResponse where
  status : Nat
  headers : List (Str × Str)
  body : Str
  deriving DecidableEq

/-- Result of one handler invocation, together with the list of upstream
URLs fetched while producing it.  `delegated` is the middleware root path
(`context.next()` serves a static page); `infoPage` is the worker root path
(an inline HTML usage page whose markup no claim concerns). -/
inductive HandlerResult
  | response (resp : HttpResponse) (fetchedUrls : List Str)
  | delegated
  | infoPage
  deriving DecidableEq

/-- JavaScript `response.ok`: status in the inclusive range 200-299. -/
def responseOk (r : UpstreamResponse) : Bool := 200 ≤ r.status && r.status ≤ 299

/-- The fetch-and-relay step shared verbatim by every fetch branch of both
implementations: non-ok upstream statuses are echoed with a
`GitHub API error: ${status} ${statusText}` body and no explicit headers;
success relays the body under the three cache/CORS headers with the
upstream content type or the branch default; a thrown fetch produces a 500
whose body is the branch error prefix plus `error.message` (the worker's
embedded-URL branch alone also appends the inbound path and extracted URL). -/
def relayFetch (oracle : Str → FetchOutcome) (path url : Str) (cacheSeconds : Nat)
    (defaultContentType errPre : Str) (errIncludesPath : Bool) : HttpResponse :=
  match oracle url with
  | .success r =>
      if responseOk r then
        { status := 200
          headers := [(str "Content-Type", r.contentType.getD defaultContentType),
                      (str "Cache-Control", str "public, max-age=" ++ str (Nat.repr cacheSeconds)),
                      (str "Access-Control-Allow-Origin", str "*")]
          body := r.body }
      else
        { status := r.status
          headers := []
          body := str "GitHub API error: " ++ str (Nat.repr r.status) ++ str " " ++ r.statusText }
  | .failure message =>
      { status := 500
        headers := []
        body := errPre ++ message ++
          (if errIncludesPath then str "\nPath: " ++ path ++ str "\nExtracted URL: " ++ url else []) }

/-- The full Pages middleware handler, parameterized by the upstream fetch
behaviour (`oracle` maps the fetched URL to its outcome). -/
def onRequest (oracle : Str → FetchOutcome) (path : Str) : HandlerResult :=
  match onRequestRoute path with
  | .fetchUrl url c d ep ip => .response (relayFetch oracle path url c d ep ip) [url]
  | .page => .delegated
  | .badRequest b => .response { status := 400, headers := [], body := b } []

/-- The full Worker handler, parameterized the same way. -/
def workerFetch (oracle : Str → FetchOutcome) (path : Str) : HandlerResult :=
  match workerFetchRoute path with
  | .fetchUrl url c d ep ip => .response (relayFetch oracle path url c d ep ip) [url]
  | .page => .infoPage
  | .badRequest b => .response { status := 400, headers := [], body := b } []

/-- Classification outcome with the branch-internal error-message fields
forgotten: which upstream URL (with cache duration and default content
type) is fetched, or the informational page, or a 400 rejection. -/
inductive Outcome
  | fetch (url : Str) (cacheSeconds : Nat) (defaultContentType : Str)
  | page
  | reject
  deriving DecidableEq

/-- Project a `RouteResult` to its observable `Outcome`. -/
def outcomeOf : RouteResult → Outcome
  | .fetchUrl u c d _ _ => .fetch u c d
  | .page => .page
  | .badRequest _ => .reject

/-- Names of the headers a handler result explicitly sets. -/
def respHeaderNames : HandlerResult → List Str
  | .response resp _ => resp.headers.map Prod.fst
  | _ => []

/-- Inbound path of shape `/gh/{a}/{r}/{ref}/{p}`. -/
def ghPath (a r ref p : Str) : Str :=
  str "/gh/" ++ a ++ str "/" ++ r ++ str "/" ++ ref ++ str "/" ++ p

/-- Inbound path of shape `/gh/{a}/{r}/blob/{ref}/{p}`. -/
def ghBlobPath (a r ref p : Str) : Str :=
  str "/gh/" ++ a ++ str "/" ++ r ++ str "/blob/" ++ ref ++ str "/" ++ p

/-- Inbound path of shape `/raw/{a}/{r}/{ref}/{p}`. -/
def rawPath (a r ref p : Str) : Str :=
  str "/raw/" ++ a ++ str "/" ++ r ++ str "/" ++ ref ++ str "/" ++ p

/-- Inbound path of shape `/releases/{a}/{r}/download/{rest}`. -/
def releasesPath (a r rest : Str) : Str :=
  str "/releases/" ++ a ++ str "/" ++ r ++ str "/download/" ++ rest

/-! ### String lemmas -/

/-- Characterization of `isPre` as prefix decomposition. -/
theorem isPre_iff (p l : Str) : isPre p l = true ↔ ∃ t, l = p ++ t := by
  induction p generalizing l with
  | nil => simp [isPre]
  | cons a as ih =>
      cases l with
      | nil => simp [isPre]
      | cons b bs =>
          by_cases h : a = b
          · subst h
            simp [isPre, ih]
          · apply iff_of_false
            · simp [isPre, if_neg h]
            · rintro ⟨t, ht⟩
              injection ht with h1 _
              exact h h1.symm

/-- A list extends its own prefix. -/
theorem isPre_append (p t : Str) : isPre p (p ++ t) = true :=
  (isPre_iff _ _).2 ⟨t, rfl⟩

/-- Dropping the length of an appended head returns the tail. -/
theorem drop_len_append (u t : Str) : (u ++ t).drop u.length = t := by
  induction u with
  | nil => simp
  | cons a as ih => simp [ih]

/-- Taking while not-slash over a slash-free head stops at the slash. -/
theorem takeWhile_slash (u t : Str) (hu : '/' ∉ u) :
    (u ++ '/' :: t).takeWhile (fun c => c ≠ '/') = u := by
  induction u with
  | nil => simp [List.takeWhile]
  | cons a as ih =>
      simp only [List.mem_cons, not_or] at hu
      have ha : a ≠ '/' := fun hh => hu.1 hh.symm
      have hd : (decide (a ≠ '/')) = true := by simp [ha]
      simp only [List.cons_append, List.takeWhile]
      rw [hd]
      exact congrArg (a :: ·) (ih hu.2)

/-- Splitting an append whose head is slash-free peels off one field. -/
theorem splitF_append_cons (c : Char) (x rest : Str) (hx : c ∉ x) :
    splitF c (x ++ c :: rest) = (x, (splitF c rest).1 :: (splitF c rest).2) := by
  induction x with
  | nil => simp [splitF]
  | cons a as ih =>
      simp only [List.mem_cons, not_or] at hx
      simp [splitF, ih hx.2, if_neg (Ne.symm hx.1)]

/-- `splitOn` version of `splitF_append_cons`. -/
theorem splitOn_append_cons (c : Char) (x rest : Str) (hx : c ∉ x) :
    splitOn c (x ++ c :: rest) = x :: splitOn c rest := by
  simp [splitOn, splitF_append_cons c x rest hx]

/-- Joining a split is the identity. -/
theorem joinSlash_splitOn (l : Str) : joinSlash (splitOn '/' l) = l := by
  induction l with
  | nil => decide
  | cons a as ih =>
      by_cases h : a = '/'
      · subst h
        have h1 : splitOn '/' ('/' :: as) = [] :: splitOn '/' as := by
          simp [splitOn, splitF]
        rw [h1]
        have h2 : joinSlash ([] :: splitOn '/' as) = '/' :: joinSlash (splitOn '/' as) := by
          simp [splitOn, joinSlash]
        rw [h2, ih]
      · have h1 : splitOn '/' (a :: as) = (a :: (splitF '/' as).1) :: (splitF '/' as).2 := by
          simp [splitOn, splitF, if_neg h]
        rw [h1]
        have h2 : joinSlash ((a :: (splitF '/' as).1) :: (splitF '/' as).2)
            = a :: joinSlash ((splitF '/' as).1 :: (splitF '/' as).2) := by
          cases hs : (splitF '/' as).2 <;> simp [joinSlash, hs]
        rw [h2]
        have h3 : joinSlash ((splitF '/' as).1 :: (splitF '/' as).2) = as := ih
        rw [h3]

/-- Occurrence count of a character. -/
def countC (c : Char) : Str → Nat
  | [] => 0
  | x :: xs => (if x = c then 1 else 0) + countC c xs

/-- Counting distributes over append. -/
theorem countC_append (c : Char) (l₁ l₂ : Str) :
    countC c (l₁ ++ l₂) = countC c l₁ + countC c l₂ := by
  induction l₁ with
  | nil => simp [countC]
  | cons a as ih => simp [countC, ih]; omega

/-- The number of fields of a split is one more than the separator count. -/
theorem splitOn_length (c : Char) (l : Str) :
    (splitOn c l).length = countC c l + 1 := by
  have key : ∀ m : Str, (splitF c m).2.length = countC c m := by
    intro m
    induction m with
    | nil => simp [splitF, countC]
    | cons a as ih =>
        by_cases h : a = c
        · simp [splitF, if_pos h, countC, h, ih]
          omega
        · simp [splitF, if_neg h, countC, h, ih]
  simp [splitOn, key]

/-- Characterization of substring containment. -/
theorem containsSub_iff (pat l : Str) :
    containsSub pat l = true ↔ ∃ pre post, l = pre ++ pat ++ post := by
  induction l with
  | nil =>
      constructor
      · intro h
        simp [containsSub, findSub] at h
        exact ⟨[], [], by simp [h]⟩
      · rintro ⟨pre, post, hp⟩
        have : pre = [] ∧ pat = [] := by
          constructor
          · cases pre with
            | nil => rfl
            | cons x xs => simp at hp
          · cases pat with
            | nil => rfl
            | cons x xs => cases pre <;> simp at hp
        simp [containsSub, findSub, this.2]
  | cons b bs ih =>
      by_cases h : isPre pat (b :: bs) = true
      · constructor
        · intro _
          obtain ⟨t, ht⟩ := (isPre_iff _ _).1 h
          exact ⟨[], t, by simp [ht]⟩
        · intro _
          simp [containsSub, findSub, h]
      · have hs : containsSub pat (b :: bs) = containsSub pat bs := by
          simp [containsSub, findSub, h]
        rw [hs, ih]
        constructor
        · rintro ⟨pre, post, hp⟩
          exact ⟨b :: pre, post, by simp [hp]⟩
        · rintro ⟨pre, post, hp⟩
          cases pre with
          | nil =>
              exfalso
              apply h
              rw [isPre_iff]
              exact ⟨post, by simpa using hp⟩
          | cons x xs =>
              injection hp with hb h2
              exact ⟨xs, post, h2⟩

/-- A prefix occurrence yields containment. -/
theorem containsSub_of_isPre (pat l : Str) (h : isPre pat l = true) :
    containsSub pat l = true := by
  obtain ⟨t, rfl⟩ := (isPre_iff _ _).1 h
  exact (containsSub_iff _ _).2 ⟨[], t, by simp⟩

/-- Containment of an extension implies containment of the base pattern. -/
theorem containsSub_mono (p q l : Str) (h : containsSub (p ++ q) l = true) :
    containsSub p l = true := by
  obtain ⟨pre, post, hp⟩ := (containsSub_iff _ _).1 h
  exact (containsSub_iff _ _).2 ⟨pre, q ++ post, by simp [hp]⟩

/-- A contained pattern contributes its character counts. -/
theorem countC_le_of_containsSub (c : Char) (pat l : Str)
    (h : containsSub pat l = true) : countC c pat ≤ countC c l := by
  obtain ⟨pre, post, hp⟩ := (containsSub_iff _ _).1 h
  subst hp
  simp [countC_append]
  omega

/-- When the pattern is a prefix, `findSub` reports index zero. -/
theorem findSub_cons_pos (pat : Str) (b : Char) (bs : Str)
    (h : isPre pat (b :: bs) = true) : findSub pat (b :: bs) = some 0 := by
  simp [findSub, h]

/-! ### Branch lemmas -/

/-- Cons normal form of a `/gh/` path. -/
theorem ghPath_cons (a r ref p : Str) :
    ghPath a r ref p
      = '/' :: 'g' :: 'h' :: '/' :: (a ++ '/' :: (r ++ '/' :: (ref ++ '/' :: p))) := by
  simp [ghPath, str]

/-- Cons normal form of a `/gh/.../blob/...` path. -/
theorem ghBlobPath_cons (a r ref p : Str) :
    ghBlobPath a r ref p
      = '/' :: 'g' :: 'h' :: '/'
        :: (a ++ '/' :: (r ++ '/' :: ('b' :: 'l' :: 'o' :: 'b' :: '/' :: (ref ++ '/' :: p)))) := by
  simp [ghBlobPath, str]

/-- Cons normal form of a `/raw/` path. -/
theorem rawPath_cons (a r ref p : Str) :
    rawPath a r ref p
      = '/' :: 'r' :: 'a' :: 'w' :: '/' :: (a ++ '/' :: (r ++ '/' :: (ref ++ '/' :: p))) := by
  simp [rawPath, str]

/-- Cons normal form of a `/releases/` path. -/
theorem releasesPath_cons (a r rest : Str) :
    releasesPath a r rest
      = '/' :: 'r' :: 'e' :: 'l' :: 'e' :: 'a' :: 's' :: 'e' :: 's' :: '/'
        :: (a ++ '/' :: (r ++ '/'
          :: ('d' :: 'o' :: 'w' :: 'n' :: 'l' :: 'o' :: 'a' :: 'd' :: '/' :: rest))) := by
  simp [releasesPath, str]

/-- A path without the `/releases/` prefix skips the release branch. -/
theorem releasesRoute_none (path : Str) (h : isPre (str "/releases/") path = false) :
    releasesRoute path = none := by
  simp [releasesRoute, matchReleases, h]

/-- A path without the `/raw/` prefix skips the raw branch. -/
theorem rawRoute_none (path : Str) (h : isPre (str "/raw/") path = false) :
    rawRoute path = none := by
  simp [rawRoute, h]

/-- A path with neither direct-URL prefix skips the middleware direct branch. -/
theorem directRoute_none (path : Str)
    (h1 : isPre (str "/https://raw.githubusercontent.com/") path = false)
    (h2 : isPre (str "/http://raw.githubusercontent.com/") path = false) :
    directRoute path = none := by
  simp [directRoute, h1, h2]

/-- A path without the `/gh/` prefix skips the gh branch. -/
theorem ghRoute_none (path : Str) (h : isPre (str "/gh/") path = false) :
    ghRoute path = none := by
  simp [ghRoute, h]

/-- The `/raw/` branch on a well-formed raw path. -/
theorem rawRoute_eq (a r ref p : Str) (ha : '/' ∉ a) (hr : '/' ∉ r) (href : '/' ∉ ref) :
    rawRoute (rawPath a r ref p)
      = some (.fetchUrl (rawUrl a r ref p) 1800 (str "text/plain")
          (str "Error fetching raw content: ") false) := by
  have hparts : splitOn '/' (a ++ '/' :: (r ++ '/' :: (ref ++ '/' :: p)))
      = a :: r :: ref :: splitOn '/' p := by
    rw [splitOn_append_cons _ _ _ ha, splitOn_append_cons _ _ _ hr,
      splitOn_append_cons _ _ _ href]
  rw [rawPath_cons]
  simp only [rawRoute]
  rw [if_pos (by simp [str, isPre])]
  have hdrop : ('/' :: 'r' :: 'a' :: 'w' :: '/'
      :: (a ++ '/' :: (r ++ '/' :: (ref ++ '/' :: p)))).drop 5
      = a ++ '/' :: (r ++ '/' :: (ref ++ '/' :: p)) := rfl
  rw [hdrop, hparts]
  rw [if_pos (by simp)]
  have hd3 : (a :: r :: ref :: splitOn '/' p).drop 3 = splitOn '/' p := rfl
  rw [hd3, joinSlash_splitOn]
  rfl

/-- A `/raw/` path with fewer than three following segments falls through. -/
theorem rawRoute_short (rest : Str) (h : (splitOn '/' rest).length < 3) :
    rawRoute (str "/raw/" ++ rest) = none := by
  have hcons : str "/raw/" ++ rest = '/' :: 'r' :: 'a' :: 'w' :: '/' :: rest := rfl
  rw [hcons]
  simp only [rawRoute]
  rw [if_pos (by simp [str, isPre])]
  have hdrop : ('/' :: 'r' :: 'a' :: 'w' :: '/' :: rest).drop 5 = rest := rfl
  rw [hdrop]
  rw [if_neg (by omega)]

/-- The `/gh/` branch on a well-formed gh path whose reference is not the
literal token `blob`. -/
theorem ghRoute_eq (a r ref p : Str) (ha : '/' ∉ a) (hr : '/' ∉ r) (href : '/' ∉ ref)
    (hblob : ref ≠ str "blob") :
    ghRoute (ghPath a r ref p)
      = some (.fetchUrl (rawUrl a r ref p) 1800 (str "text/plain")
          (str "Error fetching content: ") false) := by
  have hparts : splitOn '/' (a ++ '/' :: (r ++ '/' :: (ref ++ '/' :: p)))
      = a :: r :: ref :: splitOn '/' p := by
    rw [splitOn_append_cons _ _ _ ha, splitOn_append_cons _ _ _ hr,
      splitOn_append_cons _ _ _ href]
  rw [ghPath_cons]
  simp only [ghRoute]
  rw [if_pos (by simp [str, isPre])]
  have hdrop : ('/' :: 'g' :: 'h' :: '/'
      :: (a ++ '/' :: (r ++ '/' :: (ref ++ '/' :: p)))).drop 4
      = a ++ '/' :: (r ++ '/' :: (ref ++ '/' :: p)) := rfl
  rw [hdrop, hparts]
  rw [if_neg (by simp)]
  have hcond : ¬((a :: r :: ref :: splitOn '/' p).getD 2 [] = str "blob"
      ∧ 3 < (a :: r :: ref :: splitOn '/' p).length) := by
    rintro ⟨h1, _⟩
    exact hblob h1
  rw [if_neg hcond, if_neg hcond]
  have hd3 : (a :: r :: ref :: splitOn '/' p).drop 3 = splitOn '/' p := rfl
  rw [hd3, joinSlash_splitOn]
  rfl

/-- The `/gh/` branch with an embedded `blob` marker: the marker is dropped
and field positions shift. -/
theorem ghRoute_blob_eq (a r ref p : Str) (ha : '/' ∉ a) (hr : '/' ∉ r) (href : '/' ∉ ref) :
    ghRoute (ghBlobPath a r ref p)
      = some (.fetchUrl (rawUrl a r ref p) 1800 (str "text/plain")
          (str "Error fetching content: ") false) := by
  have hparts : splitOn '/' (a ++ '/' :: (r ++ '/'
        :: ('b' :: 'l' :: 'o' :: 'b' :: '/' :: (ref ++ '/' :: p))))
      = a :: r :: str "blob" :: ref :: splitOn '/' p := by
    rw [splitOn_append_cons _ _ _ ha, splitOn_append_cons _ _ _ hr]
    have hb : ('b' :: 'l' :: 'o' :: 'b' :: '/' :: (ref ++ '/' :: p) : Str)
        = str "blob" ++ '/' :: (ref ++ '/' :: p) := rfl
    rw [hb, splitOn_append_cons _ _ _ (by decide), splitOn_append_cons _ _ _ href]
  rw [ghBlobPath_cons]
  simp only [ghRoute]
  rw [if_pos (by simp [str, isPre])]
  have hdrop : ('/' :: 'g' :: 'h' :: '/'
      :: (a ++ '/' :: (r ++ '/' :: ('b' :: 'l' :: 'o' :: 'b' :: '/' :: (ref ++ '/' :: p))))).drop 4
      = a ++ '/' :: (r ++ '/' :: ('b' :: 'l' :: 'o' :: 'b' :: '/' :: (ref ++ '/' :: p))) := rfl
  rw [hdrop, hparts]
  rw [if_neg (by simp)]
  have hcond : (a :: r :: str "blob" :: ref :: splitOn '/' p).getD 2 [] = str "blob"
      ∧ 3 < (a :: r :: str "blob" :: ref :: splitOn '/' p).length := by
    refine ⟨rfl, ?_⟩
    simp
  rw [if_pos hcond, if_pos hcond]
  have hd4 : (a :: r :: str "blob" :: ref :: splitOn '/' p).drop 4 = splitOn '/' p := rfl
  rw [hd4, joinSlash_splitOn]
  rfl

/-- A `/gh/` path with fewer than three following segments is answered with
the gh-specific 400 inside the branch. -/
theorem ghRoute_short (rest : Str) (h : (splitOn '/' rest).length < 3) :
    ghRoute (str "/gh/" ++ rest) = some (.badRequest ghShortUsage) := by
  have hcons : str "/gh/" ++ rest = '/' :: 'g' :: 'h' :: '/' :: rest := rfl
  rw [hcons]
  simp only [ghRoute]
  rw [if_pos (by simp [str, isPre])]
  have hdrop : ('/' :: 'g' :: 'h' :: '/' :: rest).drop 4 = rest := rfl
  rw [hdrop]
  rw [if_pos h]

/-- The release regular expression on a well-formed release path. -/
theorem matchReleases_eq (u r rest : Str) (hu : u ≠ []) (hrne : r ≠ [])
    (hu2 : '/' ∉ u) (hr2 : '/' ∉ r) (hrest : rest ≠ []) :
    matchReleases (releasesPath u r rest) = some (u, r, rest) := by
  rw [releasesPath_cons]
  simp only [matchReleases]
  rw [if_pos (by simp [str, isPre])]
  have hdrop : ('/' :: 'r' :: 'e' :: 'l' :: 'e' :: 'a' :: 's' :: 'e' :: 's' :: '/'
      :: (u ++ '/' :: (r ++ '/'
        :: ('d' :: 'o' :: 'w' :: 'n' :: 'l' :: 'o' :: 'a' :: 'd' :: '/' :: rest)))).drop 10
      = u ++ '/' :: (r ++ '/'
        :: ('d' :: 'o' :: 'w' :: 'n' :: 'l' :: 'o' :: 'a' :: 'd' :: '/' :: rest)) := rfl
  rw [hdrop]
  rw [takeWhile_slash _ _ hu2]
  have hd1 : (u ++ '/' :: (r ++ '/'
      :: ('d' :: 'o' :: 'w' :: 'n' :: 'l' :: 'o' :: 'a' :: 'd' :: '/' :: rest))).drop u.length
      = '/' :: (r ++ '/' :: ('d' :: 'o' :: 'w' :: 'n' :: 'l' :: 'o' :: 'a' :: 'd' :: '/' :: rest)) :=
    drop_len_append u _
  rw [hd1]
  simp only []
  rw [if_neg hu]
  rw [takeWhile_slash _ _ hr2]
  have hd2 : (r ++ '/' :: ('d' :: 'o' :: 'w' :: 'n' :: 'l' :: 'o' :: 'a' :: 'd' :: '/' :: rest)).drop r.length
      = '/' :: ('d' :: 'o' :: 'w' :: 'n' :: 'l' :: 'o' :: 'a' :: 'd' :: '/' :: rest) :=
    drop_len_append r _
  rw [hd2]
  simp only []
  rw [if_neg hrne]
  have hd3 : ('d' :: 'o' :: 'w' :: 'n' :: 'l' :: 'o' :: 'a' :: 'd' :: '/' :: rest : Str).drop 9
      = rest := rfl
  have hpre : isPre (str "download/")
      ('d' :: 'o' :: 'w' :: 'n' :: 'l' :: 'o' :: 'a' :: 'd' :: '/' :: rest) = true :=
    isPre_append (str "download/") rest
  rw [if_pos ⟨hpre, by rw [hd3]; exact hrest⟩, hd3]

/-- The release branch on a well-formed release path. -/
theorem releasesRoute_eq (u r rest : Str) (hu : u ≠ []) (hrne : r ≠ [])
    (hu2 : '/' ∉ u) (hr2 : '/' ∉ r) (hrest : rest ≠ []) :
    releasesRoute (releasesPath u r rest)
      = some (.fetchUrl (releaseUrl u r rest) 86400 (str "application/octet-stream")
          (str "Error fetching release content: ") false) := by
  simp [releasesRoute, matchReleases_eq u r rest hu hrne hu2 hr2 hrest]

/-! ### Route-level lemmas -/

/-- Middleware classification of a well-formed `/gh/` path. -/
theorem onRequestRoute_ghPath (a r ref p : Str)
    (ha : '/' ∉ a) (hr : '/' ∉ r) (href : '/' ∉ ref) (hblob : ref ≠ str "blob") :
    onRequestRoute (ghPath a r ref p)
      = .fetchUrl (rawUrl a r ref p) 1800 (str "text/plain")
          (str "Error fetching content: ") false := by
  have hroot : ¬(ghPath a r ref p = str "/" ∨ ghPath a r ref p = []) := by
    rw [ghPath_cons]; simp [str]
  have hrel : releasesRoute (ghPath a r ref p) = none :=
    releasesRoute_none _ (by rw [ghPath_cons]; simp [str, isPre])
  have hraw : rawRoute (ghPath a r ref p) = none :=
    rawRoute_none _ (by rw [ghPath_cons]; simp [str, isPre])
  have hdir : directRoute (ghPath a r ref p) = none :=
    directRoute_none _ (by rw [ghPath_cons]; simp [str, isPre])
      (by rw [ghPath_cons]; simp [str, isPre])
  have hgh := ghRoute_eq a r ref p ha hr href hblob
  simp [onRequestRoute, hroot, hrel, hraw, hdir, hgh]

/-- Worker classification of a well-formed `/gh/` path that does not contain
the embedded raw-URL marker. -/
theorem workerFetchRoute_ghPath (a r ref p : Str)
    (ha : '/' ∉ a) (hr : '/' ∉ r) (href : '/' ∉ ref) (hblob : ref ≠ str "blob")
    (hemb : containsSub (str "/https://raw.githubusercontent.com/") (ghPath a r ref p) = false) :
    workerFetchRoute (ghPath a r ref p)
      = .fetchUrl (rawUrl a r ref p) 1800 (str "text/plain")
          (str "Error fetching content: ") false := by
  have hrel : releasesRoute (ghPath a r ref p) = none :=
    releasesRoute_none _ (by rw [ghPath_cons]; simp [str, isPre])
  have hraw : rawRoute (ghPath a r ref p) = none :=
    rawRoute_none _ (by rw [ghPath_cons]; simp [str, isPre])
  have hgh := ghRoute_eq a r ref p ha hr href hblob
  simp [workerFetchRoute, hemb, hrel, hraw, hgh]

/-- Middleware classification of a `/gh/.../blob/...` path. -/
theorem onRequestRoute_ghBlobPath (a r ref p : Str)
    (ha : '/' ∉ a) (hr : '/' ∉ r) (href : '/' ∉ ref) :
    onRequestRoute (ghBlobPath a r ref p)
      = .fetchUrl (rawUrl a r ref p) 1800 (str "text/plain")
          (str "Error fetching content: ") false := by
  have hroot : ¬(ghBlobPath a r ref p = str "/" ∨ ghBlobPath a r ref p = []) := by
    rw [ghBlobPath_cons]; simp [str]
  have hrel : releasesRoute (ghBlobPath a r ref p) = none :=
    releasesRoute_none _ (by rw [ghBlobPath_cons]; simp [str, isPre])
  have hraw : rawRoute (ghBlobPath a r ref p) = none :=
    rawRoute_none _ (by rw [ghBlobPath_cons]; simp [str, isPre])
  have hdir : directRoute (ghBlobPath a r ref p) = none :=
    directRoute_none _ (by rw [ghBlobPath_cons]; simp [str, isPre])
      (by rw [ghBlobPath_cons]; simp [str, isPre])
  have hgh := ghRoute_blob_eq a r ref p ha hr href
  simp [onRequestRoute, hroot, hrel, hraw, hdir, hgh]

/-- Worker classification of a `/gh/.../blob/...` path without the embedded
raw-URL marker. -/
theorem workerFetchRoute_ghBlobPath (a r ref p : Str)
    (ha : '/' ∉ a) (hr : '/' ∉ r) (href : '/' ∉ ref)
    (hemb : containsSub (str "/https://raw.githubusercontent.com/") (ghBlobPath a r ref p) = false) :
    workerFetchRoute (ghBlobPath a r ref p)
      = .fetchUrl (rawUrl a r ref p) 1800 (str "text/plain")
          (str "Error fetching content: ") false := by
  have hrel : releasesRoute (ghBlobPath a r ref p) = none :=
    releasesRoute_none _ (by rw [ghBlobPath_cons]; simp [str, isPre])
  have hraw : rawRoute (ghBlobPath a r ref p) = none :=
    rawRoute_none _ (by rw [ghBlobPath_cons]; simp [str, isPre])
  have hgh := ghRoute_blob_eq a r ref p ha hr href
  simp [workerFetchRoute, hemb, hrel, hraw, hgh]

/-- Middleware classification of a well-formed `/raw/` path. -/
theorem onRequestRoute_rawPath (a r ref p : Str)
    (ha : '/' ∉ a) (hr : '/' ∉ r) (href : '/' ∉ ref) :
    onRequestRoute (rawPath a r ref p)
      = .fetchUrl (rawUrl a r ref p) 1800 (str "text/plain")
          (str "Error fetching raw content: ") false := by
  have hroot : ¬(rawPath a r ref p = str "/" ∨ rawPath a r ref p = []) := by
    rw [rawPath_cons]; simp [str]
  have hrel : releasesRoute (rawPath a r ref p) = none :=
    releasesRoute_none _ (by rw [rawPath_cons]; simp [str, isPre])
  have hraw := rawRoute_eq a r ref p ha hr href
  simp [onRequestRoute, hroot, hrel, hraw]

/-- Worker classification of a well-formed `/raw/` path without the embedded
raw-URL marker. -/
theorem workerFetchRoute_rawPath (a r ref p : Str)
    (ha : '/' ∉ a) (hr : '/' ∉ r) (href : '/' ∉ ref)
    (hemb : containsSub (str "/https://raw.githubusercontent.com/") (rawPath a r ref p) = false) :
    workerFetchRoute (rawPath a r ref p)
      = .fetchUrl (rawUrl a r ref p) 1800 (str "text/plain")
          (str "Error fetching raw content: ") false := by
  have hrel : releasesRoute (rawPath a r ref p) = none :=
    releasesRoute_none _ (by rw [rawPath_cons]; simp [str, isPre])
  have hraw := rawRoute_eq a r ref p ha hr href
  simp [workerFetchRoute, hemb, hrel, hraw]

/-- Middleware classification of a well-formed release path. -/
theorem onRequestRoute_releasesPath (u r rest : Str) (hu : u ≠ []) (hrne : r ≠ [])
    (hu2 : '/' ∉ u) (hr2 : '/' ∉ r) (hrest : rest ≠ []) :
    onRequestRoute (releasesPath u r rest)
      = .fetchUrl (releaseUrl u r rest) 86400 (str "application/octet-stream")
          (str "Error fetching release content: ") false := by
  have hroot : ¬(releasesPath u r rest = str "/" ∨ releasesPath u r rest = []) := by
    rw [releasesPath_cons]; simp [str]
  have hrel := releasesRoute_eq u r rest hu hrne hu2 hr2 hrest
  simp [onRequestRoute, hroot, hrel]

/-- Worker classification of a well-formed release path without the embedded
raw-URL marker. -/
theorem workerFetchRoute_releasesPath (u r rest : Str) (hu : u ≠ []) (hrne : r ≠ [])
    (hu2 : '/' ∉ u) (hr2 : '/' ∉ r) (hrest : rest ≠ [])
    (hemb : containsSub (str "/https://raw.githubusercontent.com/") (releasesPath u r rest) = false) :
    workerFetchRoute (releasesPath u r rest)
      = .fetchUrl (releaseUrl u r rest) 86400 (str "application/octet-stream")
          (str "Error fetching release content: ") false := by
  have hrel := releasesRoute_eq u r rest hu hrne hu2 hr2 hrest
  simp [workerFetchRoute, hemb, hrel]

/-- Middleware on a `/gh/` path with fewer than three following segments:
the gh-specific 400 without any fetch. -/
theorem onRequestRoute_gh_short (rest : Str) (h : (splitOn '/' rest).length < 3) :
    onRequestRoute (str "/gh/" ++ rest) = .badRequest ghShortUsage := by
  have hcons : str "/gh/" ++ rest = '/' :: 'g' :: 'h' :: '/' :: rest := rfl
  have hroot : ¬(str "/gh/" ++ rest = str "/" ∨ str "/gh/" ++ rest = []) := by
    rw [hcons]; simp [str]
  have hrel : releasesRoute (str "/gh/" ++ rest) = none :=
    releasesRoute_none _ (by rw [hcons]; simp [str, isPre])
  have hraw : rawRoute (str "/gh/" ++ rest) = none :=
    rawRoute_none _ (by rw [hcons]; simp [str, isPre])
  have hdir : directRoute (str "/gh/" ++ rest) = none :=
    directRoute_none _ (by rw [hcons]; simp [str, isPre]) (by rw [hcons]; simp [str, isPre])
  have hgh := ghRoute_short rest h
  simp only [onRequestRoute]
  rw [if_neg hroot]
  simp [hrel, hraw, hdir, hgh]

/-- Middleware on a `/raw/` path with fewer than three following segments:
falls through every branch to the final 400 with the full usage text. -/
theorem onRequestRoute_raw_short (rest : Str) (h : (splitOn '/' rest).length < 3) :
    onRequestRoute (str "/raw/" ++ rest) = .badRequest middlewareUsage := by
  have hcons : str "/raw/" ++ rest = '/' :: 'r' :: 'a' :: 'w' :: '/' :: rest := rfl
  have hroot : ¬(str "/raw/" ++ rest = str "/" ∨ str "/raw/" ++ rest = []) := by
    rw [hcons]; simp [str]
  have hrel : releasesRoute (str "/raw/" ++ rest) = none :=
    releasesRoute_none _ (by rw [hcons]; simp [str, isPre])
  have hraw := rawRoute_short rest h
  have hdir : directRoute (str "/raw/" ++ rest) = none :=
    directRoute_none _ (by rw [hcons]; simp [str, isPre]) (by rw [hcons]; simp [str, isPre])
  have hgh : ghRoute (str "/raw/" ++ rest) = none :=
    ghRoute_none _ (by rw [hcons]; simp [str, isPre])
  simp only [onRequestRoute]
  rw [if_neg hroot]
  simp [hrel, hraw, hdir, hgh]

/-- A short `/gh/` or `/raw/` suffix has too few slashes to contain the
embedded raw-URL marker. -/
theorem short_no_embedded (pre4 : Str) (rest : Str)
    (hpre : countC '/' pre4 = 2) (h : (splitOn '/' rest).length < 3) :
    containsSub (str "/https://raw.githubusercontent.com/") (pre4 ++ rest) = false := by
  by_contra hx
  have hx' : containsSub (str "/https://raw.githubusercontent.com/") (pre4 ++ rest) = true := by
    cases hb : containsSub (str "/https://raw.githubusercontent.com/") (pre4 ++ rest)
    · exact absurd hb hx
    · rfl
  have hle := countC_le_of_containsSub '/' _ _ hx'
  have h1 : countC '/' (str "/https://raw.githubusercontent.com/") = 4 := by decide
  have h2 : countC '/' (pre4 ++ rest) = 2 + countC '/' rest := by
    rw [countC_append, hpre]
  have h3 := splitOn_length '/' rest
  omega

/-- Worker on a `/gh/` path with fewer than three following segments. -/
theorem workerFetchRoute_gh_short (rest : Str) (h : (splitOn '/' rest).length < 3) :
    workerFetchRoute (str "/gh/" ++ rest) = .badRequest ghShortUsage := by
  have hcons : str "/gh/" ++ rest = '/' :: 'g' :: 'h' :: '/' :: rest := rfl
  have hemb := short_no_embedded (str "/gh/") rest (by decide) h
  have hroot : ¬(str "/gh/" ++ rest = str "/" ∨ str "/gh/" ++ rest = []) := by
    rw [hcons]; simp [str]
  have hrel : releasesRoute (str "/gh/" ++ rest) = none :=
    releasesRoute_none _ (by rw [hcons]; simp [str, isPre])
  have hraw : rawRoute (str "/gh/" ++ rest) = none :=
    rawRoute_none _ (by rw [hcons]; simp [str, isPre])
  have hgh := ghRoute_short rest h
  simp [workerFetchRoute, hemb, hroot, hrel, hraw, hgh]

/-- Worker on a `/raw/` path with fewer than three following segments: the
final 400 echoing the path together with the full usage text. -/
theorem workerFetchRoute_raw_short (rest : Str) (h : (splitOn '/' rest).length < 3) :
    workerFetchRoute (str "/raw/" ++ rest) = .badRequest (workerUsage (str "/raw/" ++ rest)) := by
  have hcons : str "/raw/" ++ rest = '/' :: 'r' :: 'a' :: 'w' :: '/' :: rest := rfl
  have hemb := short_no_embedded (str "/raw/") rest (by decide) h
  have hroot : ¬(str "/raw/" ++ rest = str "/" ∨ str "/raw/" ++ rest = []) := by
    rw [hcons]; simp [str]
  have hrel : releasesRoute (str "/raw/" ++ rest) = none :=
    releasesRoute_none _ (by rw [hcons]; simp [str, isPre])
  have hraw := rawRoute_short rest h
  have hgh : ghRoute (str "/raw/" ++ rest) = none :=
    ghRoute_none _ (by rw [hcons]; simp [str, isPre])
  simp only [workerFetchRoute]
  rw [if_neg (by rw [hemb]; simp)]
  simp only [hrel, hraw, hgh]
  rw [if_neg hroot]

/-- Middleware on a path beginning with the direct raw-URL prefix: the
leading slash is stripped. -/
theorem onRequestRoute_direct (t : Str) :
    onRequestRoute (str "/https://raw.githubusercontent.com/" ++ t)
      = .fetchUrl (str "https://raw.githubusercontent.com/" ++ t) 1800 (str "text/plain")
          (str "Error fetching content: ") false := by
  have hcons : str "/https://raw.githubusercontent.com/" ++ t
      = '/' :: 'h' :: (str "ttps://raw.githubusercontent.com/" ++ t) := rfl
  have hroot : ¬(str "/https://raw.githubusercontent.com/" ++ t = str "/"
      ∨ str "/https://raw.githubusercontent.com/" ++ t = []) := by
    rw [hcons]; simp [str]
  have hrel : releasesRoute (str "/https://raw.githubusercontent.com/" ++ t) = none :=
    releasesRoute_none _ (by rw [hcons]; simp [str, isPre])
  have hraw : rawRoute (str "/https://raw.githubusercontent.com/" ++ t) = none :=
    rawRoute_none _ (by rw [hcons]; simp [str, isPre])
  have hdir : directRoute (str "/https://raw.githubusercontent.com/" ++ t)
      = some (.fetchUrl (str "https://raw.githubusercontent.com/" ++ t) 1800 (str "text/plain")
          (str "Error fetching content: ") false) := by
    have hp4 : isPre (str "/http") (str "/https://raw.githubusercontent.com/" ++ t) = true :=
      isPre_append (str "/http") (str "s://raw.githubusercontent.com/" ++ t)
    simp only [directRoute]
    rw [if_pos (Or.inl (isPre_append _ t))]
    rw [if_neg (by rw [hcons]; simp [str, isPre])]
    rw [if_pos hp4]
    rfl
  simp only [onRequestRoute]
  rw [if_neg hroot]
  simp [hrel, hraw, hdir]

/-- Middleware on a path beginning with the `http` (not `https`) direct
raw-URL prefix: still proxied, yielding a plain-http upstream URL. -/
theorem onRequestRoute_direct_http (t : Str) :
    onRequestRoute (str "/http://raw.githubusercontent.com/" ++ t)
      = .fetchUrl (str "http://raw.githubusercontent.com/" ++ t) 1800 (str "text/plain")
          (str "Error fetching content: ") false := by
  have hcons : str "/http://raw.githubusercontent.com/" ++ t
      = '/' :: 'h' :: (str "ttp://raw.githubusercontent.com/" ++ t) := rfl
  have hroot : ¬(str "/http://raw.githubusercontent.com/" ++ t = str "/"
      ∨ str "/http://raw.githubusercontent.com/" ++ t = []) := by
    rw [hcons]; simp [str]
  have hrel : releasesRoute (str "/http://raw.githubusercontent.com/" ++ t) = none :=
    releasesRoute_none _ (by rw [hcons]; simp [str, isPre])
  have hraw : rawRoute (str "/http://raw.githubusercontent.com/" ++ t) = none :=
    rawRoute_none _ (by rw [hcons]; simp [str, isPre])
  have hdir : directRoute (str "/http://raw.githubusercontent.com/" ++ t)
      = some (.fetchUrl (str "http://raw.githubusercontent.com/" ++ t) 1800 (str "text/plain")
          (str "Error fetching content: ") false) := by
    have hp4 : isPre (str "/http") (str "/http://raw.githubusercontent.com/" ++ t) = true :=
      isPre_append (str "/http") (str "://raw.githubusercontent.com/" ++ t)
    simp only [directRoute]
    rw [if_pos (Or.inr (isPre_append _ t))]
    rw [if_neg (by rw [hcons]; simp [str, isPre])]
    rw [if_pos hp4]
    rfl
  simp only [onRequestRoute]
  rw [if_neg hroot]
  simp [hrel, hraw, hdir]

/-- Worker on any path containing the embedded raw-URL marker: the suffix
from the first occurrence of `/https://` onward, with one slash stripped. -/
theorem workerFetchRoute_embedded (path : Str) (i : Nat)
    (hc : containsSub (str "/https://raw.githubusercontent.com/") path = true)
    (hf : findSub (str "/https://") path = some i) :
    workerFetchRoute path
      = .fetchUrl (path.drop (i + 1)) 1800 (str "text/plain")
          (str "Error fetching content: ") true := by
  simp [workerFetchRoute, hc, hf]

/-- The embedded marker guarantees the shorter scheme marker occurs. -/
theorem findSub_scheme_isSome (path : Str)
    (hc : containsSub (str "/https://raw.githubusercontent.com/") path = true) :
    (findSub (str "/https://") path).isSome := by
  have hsplit : str "/https://raw.githubusercontent.com/"
      = str "/https://" ++ str "raw.githubusercontent.com/" := rfl
  have := containsSub_mono (str "/https://") (str "raw.githubusercontent.com/") path
    (by rw [← hsplit]; exact hc)
  simpa [containsSub] using this

/-- A path free of the scheme marker is free of the full embedded marker. -/
theorem not_contains_marker (path : Str)
    (h : containsSub (str "/https://") path = false) :
    containsSub (str "/https://raw.githubusercontent.com/") path = false := by
  cases hb : containsSub (str "/https://raw.githubusercontent.com/") path
  · rfl
  · exfalso
    have hsplit : str "/https://raw.githubusercontent.com/"
        = str "/https://" ++ str "raw.githubusercontent.com/" := rfl
    have h2 := containsSub_mono (str "/https://") (str "raw.githubusercontent.com/") path
      (by rw [← hsplit]; exact hb)
    rw [h] at h2
    exact Bool.false_ne_true h2

/-! ### Handler-level lemmas -/

/-- The middleware performs exactly one fetch on a classified fetch path. -/
theorem onRequest_fetch (oracle : Str → FetchOutcome) (path u : Str) (c : Nat)
    (d ep : Str) (ip : Bool) (h : onRequestRoute path = .fetchUrl u c d ep ip) :
    onRequest oracle path = .response (relayFetch oracle path u c d ep ip) [u] := by
  simp [onRequest, h]

/-- The worker performs exactly one fetch on a classified fetch path. -/
theorem workerFetch_fetch (oracle : Str → FetchOutcome) (path u : Str) (c : Nat)
    (d ep : Str) (ip : Bool) (h : workerFetchRoute path = .fetchUrl u c d ep ip) :
    workerFetch oracle path = .response (relayFetch oracle path u c d ep ip) [u] := by
  simp [workerFetch, h]

/-- The middleware answers a rejected path with a header-less 400 and no fetch. -/
theorem onRequest_badRequest (oracle : Str → FetchOutcome) (path b : Str)
    (h : onRequestRoute path = .badRequest b) :
    onRequest oracle path = .response { status := 400, headers := [], body := b } [] := by
  simp [onRequest, h]

/-- The worker answers a rejected path with a header-less 400 and no fetch. -/
theorem workerFetch_badRequest (oracle : Str → FetchOutcome) (path b : Str)
    (h : workerFetchRoute path = .badRequest b) :
    workerFetch oracle path = .response { status := 400, headers := [], body := b } [] := by
  simp [workerFetch, h]

/-- Relay of a successful upstream response: the three headers, upstream
content type or branch default, body unchanged. -/
theorem relayFetch_ok (oracle : Str → FetchOutcome) (path u : Str) (c : Nat)
    (d ep : Str) (ip : Bool) (resp : UpstreamResponse)
    (h1 : oracle u = .success resp) (h2 : responseOk resp = true) :
    relayFetch oracle path u c d ep ip
      = { status := 200
          headers := [(str "Content-Type", resp.contentType.getD d),
                      (str "Cache-Control", str "public, max-age=" ++ str (Nat.repr c)),
                      (str "Access-Control-Allow-Origin", str "*")]
          body := resp.body } := by
  simp [relayFetch, h1, h2]

/-- Relay of a non-2xx upstream response: the status is echoed and the body
names the code and reason phrase; no explicit headers. -/
theorem relayFetch_notOk (oracle : Str → FetchOutcome) (path u : Str) (c : Nat)
    (d ep : Str) (ip : Bool) (resp : UpstreamResponse)
    (h1 : oracle u = .success resp) (h2 : responseOk resp = false) :
    relayFetch oracle path u c d ep ip
      = { status := resp.status
          headers := []
          body := str "GitHub API error: " ++ str (Nat.repr resp.status)
            ++ str " " ++ resp.statusText } := by
  simp [relayFetch, h1, h2]

/-- Relay of a thrown fetch: 500 with the branch error prefix and message,
the worker embedded branch alone appending path and extracted URL. -/
theorem relayFetch_failure (oracle : Str → FetchOutcome) (path u : Str) (c : Nat)
    (d ep : Str) (ip : Bool) (m : Str) (h1 : oracle u = .failure m) :
    relayFetch oracle path u c d ep ip
      = { status := 500
          headers := []
          body := ep ++ m ++
            (if ip then str "\nPath: " ++ path ++ str "\nExtracted URL: " ++ u else []) } := by
  simp [relayFetch, h1]

/-! ### Claims -/

/-- C1: For every inbound path of the shape `/gh/{account}/{repo}/{ref}/{p...}`
(slash-free segments, so at least three segments follow `/gh/`; the trailing
`p` may itself contain slashes) with `ref` not the literal token `blob`, and
with the path not containing the embedded scheme marker `/https://` (such a
path belongs to the higher-priority embedded-URL shape, claimed first in the
matchers' fixed priority order), both the Pages middleware and the Worker
derive the upstream address
`https://raw.githubusercontent.com/{account}/{repo}/{ref}/{p...}`. -/
theorem c1_gh_short_form (a r ref p : Str)
    (ha : '/' ∉ a) (hr : '/' ∉ r) (href : '/' ∉ ref) (hblob : ref ≠ str "blob")
    (hemb : containsSub (str "/https://") (ghPath a r ref p) = false) :
    onRequestRoute (ghPath a r ref p)
        = .fetchUrl (rawUrl a r ref p) 1800 (str "text/plain")
            (str "Error fetching content: ") false
      ∧ workerFetchRoute (ghPath a r ref p)
        = .fetchUrl (rawUrl a r ref p) 1800 (str "text/plain")
            (str "Error fetching content: ") false :=
  ⟨onRequestRoute_ghPath a r ref p ha hr href hblob,
   workerFetchRoute_ghPath a r ref p ha hr href hblob (not_contains_marker _ hemb)⟩

/-- C1 witness: the spec's own example coordinates. -/
theorem c1_gh_short_form_witness :
    onRequestRoute (ghPath (str "acme") (str "widgets") (str "main") (str "src/a.js"))
        = .fetchUrl (rawUrl (str "acme") (str "widgets") (str "main") (str "src/a.js"))
            1800 (str "text/plain") (str "Error fetching content: ") false
      ∧ workerFetchRoute (ghPath (str "acme") (str "widgets") (str "main") (str "src/a.js"))
        = .fetchUrl (rawUrl (str "acme") (str "widgets") (str "main") (str "src/a.js"))
            1800 (str "text/plain") (str "Error fetching content: ") false :=
  c1_gh_short_form (str "acme") (str "widgets") (str "main") (str "src/a.js")
    (by decide) (by decide) (by decide) (by decide) (by decide)

/-- C2 counterexample: the path `/https://example.com/x` contains `/https://`
after the leading slash, yet neither implementation derives the embedded URL
`https://example.com/x` — both reject the path with a 400 (the middleware's
rule is anchored to the path start and restricted to the raw host, and the
worker's rule requires the raw host as well), so the claimed any-host
embedded-URL rule does not exist in the code. -/
theorem c2_embedded_url_counterexample :
    containsSub (str "/https://") (str "/https://example.com/x") = true
      ∧ outcomeOf (onRequestRoute (str "/https://example.com/x")) = .reject
      ∧ outcomeOf (workerFetchRoute (str "/https://example.com/x")) = .reject := by
  decide

/-- C2 amended: the embedded-URL rule is host-restricted. In the Worker, any
path containing `/https://raw.githubusercontent.com/` anywhere is claimed
before the prefix rules, and the derived upstream is the suffix of the path
from the first occurrence of `/https://` onward with exactly one leading
slash stripped; in the Pages middleware the rule only fires when the path
begins with `/https://raw.githubusercontent.com/` (or its plain-http
variant), again stripping the one leading slash. -/
theorem c2_embedded_url (path t : Str) (i : Nat)
    (hc : containsSub (str "/https://raw.githubusercontent.com/") path = true)
    (hf : findSub (str "/https://") path = some i) :
    workerFetchRoute path
        = .fetchUrl (path.drop (i + 1)) 1800 (str "text/plain")
            (str "Error fetching content: ") true
      ∧ onRequestRoute (str "/https://raw.githubusercontent.com/" ++ t)
        = .fetchUrl (str "https://raw.githubusercontent.com/" ++ t) 1800 (str "text/plain")
            (str "Error fetching content: ") false :=
  ⟨workerFetchRoute_embedded path i hc hf, onRequestRoute_direct t⟩

/-- C2 amended witness: an embedded raw URL that is not at the start of the
path (worker), and a start-anchored one (middleware). -/
theorem c2_embedded_url_witness :
    workerFetchRoute (str "/x/https://raw.githubusercontent.com/a/b")
        = .fetchUrl (str "https://raw.githubusercontent.com/a/b") 1800 (str "text/plain")
            (str "Error fetching content: ") true
      ∧ onRequestRoute (str "/https://raw.githubusercontent.com/a/b")
        = .fetchUrl (str "https://raw.githubusercontent.com/a/b") 1800 (str "text/plain")
            (str "Error fetching content: ") false :=
  c2_embedded_url (str "/x/https://raw.githubusercontent.com/a/b") (str "a/b") 2
    (by decide) (by decide)

/-- C3 counterexample: with `ref = blob` the two short forms disagree — the
`/raw/` form keeps the segment `blob` as the branch, while the `/gh/` form
strips it and shifts the following segment into the branch position, so
`/raw/a/r/blob/x` and `/gh/a/r/blob/x` derive different upstream addresses. -/
theorem c3_raw_gh_counterexample :
    onRequestRoute (rawPath (str "a") (str "r") (str "blob") (str "x"))
        = .fetchUrl (str "https://raw.githubusercontent.com/a/r/blob/x") 1800 (str "text/plain")
            (str "Error fetching raw content: ") false
      ∧ onRequestRoute (ghPath (str "a") (str "r") (str "blob") (str "x"))
        = .fetchUrl (str "https://raw.githubusercontent.com/a/r/x/") 1800 (str "text/plain")
            (str "Error fetching content: ") false
      ∧ outcomeOf (onRequestRoute (rawPath (str "a") (str "r") (str "blob") (str "x")))
          ≠ outcomeOf (onRequestRoute (ghPath (str "a") (str "r") (str "blob") (str "x")))
      ∧ outcomeOf (workerFetchRoute (rawPath (str "a") (str "r") (str "blob") (str "x")))
          ≠ outcomeOf (workerFetchRoute (ghPath (str "a") (str "r") (str "blob") (str "x"))) := by
  decide

/-- C3 amended: for every tuple `(a, r, ref, p)` of slash-free segments with
`ref` not the literal token `blob` (and the paths free of the embedded
scheme marker), `/raw/{a}/{r}/{ref}/{p}` and `/gh/{a}/{r}/{ref}/{p}` derive
the same upstream address in both implementations; when `ref = blob` the
`/gh/` form strips it and the two differ. -/
theorem c3_raw_gh_agree (a r ref p : Str)
    (ha : '/' ∉ a) (hr : '/' ∉ r) (href : '/' ∉ ref) (hblob : ref ≠ str "blob")
    (hemb1 : containsSub (str "/https://") (rawPath a r ref p) = false)
    (hemb2 : containsSub (str "/https://") (ghPath a r ref p) = false) :
    outcomeOf (onRequestRoute (rawPath a r ref p))
        = .fetch (rawUrl a r ref p) 1800 (str "text/plain")
      ∧ outcomeOf (onRequestRoute (ghPath a r ref p))
        = .fetch (rawUrl a r ref p) 1800 (str "text/plain")
      ∧ outcomeOf (workerFetchRoute (rawPath a r ref p))
        = .fetch (rawUrl a r ref p) 1800 (str "text/plain")
      ∧ outcomeOf (workerFetchRoute (ghPath a r ref p))
        = .fetch (rawUrl a r ref p) 1800 (str "text/plain") := by
  refine ⟨?_, ?_, ?_, ?_⟩
  · rw [onRequestRoute_rawPath a r ref p ha hr href]; rfl
  · rw [onRequestRoute_ghPath a r ref p ha hr href hblob]; rfl
  · rw [workerFetchRoute_rawPath a r ref p ha hr href (not_contains_marker _ hemb1)]; rfl
  · rw [workerFetchRoute_ghPath a r ref p ha hr href hblob (not_contains_marker _ hemb2)]; rfl

/-- C3 amended witness. -/
theorem c3_raw_gh_agree_witness :
    outcomeOf (onRequestRoute (rawPath (str "acme") (str "widgets") (str "main") (str "a.js")))
        = .fetch (rawUrl (str "acme") (str "widgets") (str "main") (str "a.js"))
            1800 (str "text/plain")
      ∧ outcomeOf (onRequestRoute (ghPath (str "acme") (str "widgets") (str "main") (str "a.js")))
        = .fetch (rawUrl (str "acme") (str "widgets") (str "main") (str "a.js"))
            1800 (str "text/plain")
      ∧ outcomeOf (workerFetchRoute (rawPath (str "acme") (str "widgets") (str "main") (str "a.js")))
        = .fetch (rawUrl (str "acme") (str "widgets") (str "main") (str "a.js"))
            1800 (str "text/plain")
      ∧ outcomeOf (workerFetchRoute (ghPath (str "acme") (str "widgets") (str "main") (str "a.js")))
        = .fetch (rawUrl (str "acme") (str "widgets") (str "main") (str "a.js"))
            1800 (str "text/plain") :=
  c3_raw_gh_agree (str "acme") (str "widgets") (str "main") (str "a.js")
    (by decide) (by decide) (by decide) (by decide) (by decide) (by decide)

/-- C4 counterexample: when the reference itself is the literal `blob`, the
path `/gh/a/r/blob/blob/x` (shape `/gh/{a}/{r}/blob/{ref}/{p}` with
`ref = blob`) does not derive the same address as `/gh/a/r/blob/x`, because
the latter again triggers blob-stripping. -/
theorem c4_blob_counterexample :
    onRequestRoute (ghBlobPath (str "a") (str "r") (str "blob") (str "x"))
        = .fetchUrl (str "https://raw.githubusercontent.com/a/r/blob/x") 1800 (str "text/plain")
            (str "Error fetching content: ") false
      ∧ onRequestRoute (ghPath (str "a") (str "r") (str "blob") (str "x"))
        = .fetchUrl (str "https://raw.githubusercontent.com/a/r/x/") 1800 (str "text/plain")
            (str "Error fetching content: ") false
      ∧ outcomeOf (onRequestRoute (ghBlobPath (str "a") (str "r") (str "blob") (str "x")))
          ≠ outcomeOf (onRequestRoute (ghPath (str "a") (str "r") (str "blob") (str "x"))) := by
  decide

/-- C4 amended: for slash-free segments with `ref` not the literal `blob`
(and paths free of the embedded scheme marker), both implementations derive
for `/gh/{a}/{r}/blob/{ref}/{p}` exactly the address derived for
`/gh/{a}/{r}/{ref}/{p}`, namely the raw-content address built from
`(a, r, ref, p)` alone — the discarded `blob` segment does not reach the
upstream address. -/
theorem c4_blob_stripped (a r ref p : Str)
    (ha : '/' ∉ a) (hr : '/' ∉ r) (href : '/' ∉ ref) (hblob : ref ≠ str "blob")
    (hemb1 : containsSub (str "/https://") (ghBlobPath a r ref p) = false)
    (hemb2 : containsSub (str "/https://") (ghPath a r ref p) = false) :
    onRequestRoute (ghBlobPath a r ref p) = onRequestRoute (ghPath a r ref p)
      ∧ onRequestRoute (ghBlobPath a r ref p)
        = .fetchUrl (rawUrl a r ref p) 1800 (str "text/plain")
            (str "Error fetching content: ") false
      ∧ workerFetchRoute (ghBlobPath a r ref p) = workerFetchRoute (ghPath a r ref p)
      ∧ workerFetchRoute (ghBlobPath a r ref p)
        = .fetchUrl (rawUrl a r ref p) 1800 (str "text/plain")
            (str "Error fetching content: ") false := by
  have h1 := onRequestRoute_ghBlobPath a r ref p ha hr href
  have h2 := onRequestRoute_ghPath a r ref p ha hr href hblob
  have h3 := workerFetchRoute_ghBlobPath a r ref p ha hr href (not_contains_marker _ hemb1)
  have h4 := workerFetchRoute_ghPath a r ref p ha hr href hblob (not_contains_marker _ hemb2)
  exact ⟨h1.trans h2.symm, h1, h3.trans h4.symm, h3⟩

/-- C4 amended witness: the spec's own blob example. -/
theorem c4_blob_stripped_witness :
    onRequestRoute (ghBlobPath (str "acme") (str "widgets") (str "main") (str "a.js"))
        = onRequestRoute (ghPath (str "acme") (str "widgets") (str "main") (str "a.js"))
      ∧ onRequestRoute (ghBlobPath (str "acme") (str "widgets") (str "main") (str "a.js"))
        = .fetchUrl (rawUrl (str "acme") (str "widgets") (str "main") (str "a.js"))
            1800 (str "text/plain") (str "Error fetching content: ") false
      ∧ workerFetchRoute (ghBlobPath (str "acme") (str "widgets") (str "main") (str "a.js"))
        = workerFetchRoute (ghPath (str "acme") (str "widgets") (str "main") (str "a.js"))
      ∧ workerFetchRoute (ghBlobPath (str "acme") (str "widgets") (str "main") (str "a.js"))
        = .fetchUrl (rawUrl (str "acme") (str "widgets") (str "main") (str "a.js"))
            1800 (str "text/plain") (str "Error fetching content: ") false :=
  c4_blob_stripped (str "acme") (str "widgets") (str "main") (str "a.js")
    (by decide) (by decide) (by decide) (by decide) (by decide) (by decide)

/-- C5 counterexample: the short path `/gh/a/b` is answered with a 400 whose
body names only the `/gh/` format — it does not list the four supported
formats (the `/raw/` usage line, for one, is absent). -/
theorem c5_short_counterexample :
    onRequest (fun _ => FetchOutcome.failure []) (str "/gh/a/b")
        = .response { status := 400, headers := [], body := ghShortUsage } []
      ∧ workerFetch (fun _ => FetchOutcome.failure []) (str "/gh/a/b")
        = .response { status := 400, headers := [], body := ghShortUsage } []
      ∧ containsSub (str "2. /raw/username/repo/branch/file_path") ghShortUsage = false := by
  decide

/-- C5 amended: a `/gh/` or `/raw/` path with fewer than three following
segments performs no upstream fetch and is answered 400; for `/raw/` the
body is the final usage text listing all four formats (the worker version
additionally echoes the path), while for `/gh/` the body names the `/gh/`
format only. -/
theorem c5_short_paths (oracle : Str → FetchOutcome) (rest : Str)
    (h : (splitOn '/' rest).length < 3) :
    onRequest oracle (str "/raw/" ++ rest)
        = .response { status := 400, headers := [], body := middlewareUsage } []
      ∧ onRequest oracle (str "/gh/" ++ rest)
        = .response { status := 400, headers := [], body := ghShortUsage } []
      ∧ workerFetch oracle (str "/raw/" ++ rest)
        = .response { status := 400, headers := [], body := workerUsage (str "/raw/" ++ rest) } []
      ∧ workerFetch oracle (str "/gh/" ++ rest)
        = .response { status := 400, headers := [], body := ghShortUsage } []
      ∧ containsSub (str "1. /gh/username/repo/branch/file_path") middlewareUsage = true
      ∧ containsSub (str "2. /raw/username/repo/branch/file_path") middlewareUsage = true
      ∧ containsSub (str "3. /releases/username/repo/download/tag/filename") middlewareUsage = true
      ∧ containsSub (str "4. /https://raw.githubusercontent.com/username/repo/branch/file_path")
          middlewareUsage = true := by
  refine ⟨?_, ?_, ?_, ?_, by decide, by decide, by decide, by decide⟩
  · exact onRequest_badRequest oracle _ _ (onRequestRoute_raw_short rest h)
  · exact onRequest_badRequest oracle _ _ (onRequestRoute_gh_short rest h)
  · exact workerFetch_badRequest oracle _ _ (workerFetchRoute_raw_short rest h)
  · exact workerFetch_badRequest oracle _ _ (workerFetchRoute_gh_short rest h)

/-- C5 amended witness: two segments after the prefix. -/
theorem c5_short_paths_witness :
    onRequest (fun _ => FetchOutcome.failure []) (str "/raw/" ++ str "a/b")
        = .response { status := 400, headers := [], body := middlewareUsage } []
      ∧ onRequest (fun _ => FetchOutcome.failure []) (str "/gh/" ++ str "a/b")
        = .response { status := 400, headers := [], body := ghShortUsage } []
      ∧ workerFetch (fun _ => FetchOutcome.failure []) (str "/raw/" ++ str "a/b")
        = .response
            { status := 400
              headers := []
              body := workerUsage (str "/raw/" ++ str "a/b") } []
      ∧ workerFetch (fun _ => FetchOutcome.failure []) (str "/gh/" ++ str "a/b")
        = .response { status := 400, headers := [], body := ghShortUsage } []
      ∧ containsSub (str "1. /gh/username/repo/branch/file_path") middlewareUsage = true
      ∧ containsSub (str "2. /raw/username/repo/branch/file_path") middlewareUsage = true
      ∧ containsSub (str "3. /releases/username/repo/download/tag/filename") middlewareUsage = true
      ∧ containsSub (str "4. /https://raw.githubusercontent.com/username/repo/branch/file_path")
          middlewareUsage = true :=
  c5_short_paths (fun _ => FetchOutcome.failure []) (str "a/b") (by decide)

/-- C6: on every path either implementation classifies as a fetch, when the
single upstream fetch returns a status outside 200-299 the handler's
response carries exactly the upstream status, a body naming the status code
and reason phrase, and the fetch-trace holds the one fetched URL — no
retry. -/
theorem c6_upstream_error (oracle : Str → FetchOutcome) (path u : Str) (c : Nat)
    (d ep : Str) (ip : Bool) (resp : UpstreamResponse)
    (hup : oracle u = .success resp) (hok : responseOk resp = false) :
    (onRequestRoute path = .fetchUrl u c d ep ip →
      onRequest oracle path
        = .response
            { status := resp.status
              headers := []
              body := str "GitHub API error: " ++ str (Nat.repr resp.status)
                ++ str " " ++ resp.statusText } [u])
      ∧ (workerFetchRoute path = .fetchUrl u c d ep ip →
        workerFetch oracle path
          = .response
              { status := resp.status
                headers := []
                body := str "GitHub API error: " ++ str (Nat.repr resp.status)
                  ++ str " " ++ resp.statusText } [u]) := by
  constructor
  · intro hroute
    rw [onRequest_fetch oracle path u c d ep ip hroute,
      relayFetch_notOk oracle path u c d ep ip resp hup hok]
  · intro hroute
    rw [workerFetch_fetch oracle path u c d ep ip hroute,
      relayFetch_notOk oracle path u c d ep ip resp hup hok]

/-- C6 witness: a 404 with reason phrase `Not Found` on the spec's example
path, relayed verbatim by both handlers. -/
theorem c6_upstream_error_witness :
    onRequest
        (fun u => if u = rawUrl (str "acme") (str "widgets") (str "main") (str "README.md")
          then FetchOutcome.success
            { status := 404, statusText := str "Not Found", contentType := none, body := [] }
          else FetchOutcome.failure [])
        (ghPath (str "acme") (str "widgets") (str "main") (str "README.md"))
      = .response { status := 404, headers := [], body := str "GitHub API error: 404 Not Found" }
          [rawUrl (str "acme") (str "widgets") (str "main") (str "README.md")] := by
  have h := (c6_upstream_error
    (fun u => if u = rawUrl (str "acme") (str "widgets") (str "main") (str "README.md")
      then FetchOutcome.success
        { status := 404, statusText := str "Not Found", contentType := none, body := [] }
      else FetchOutcome.failure [])
    (ghPath (str "acme") (str "widgets") (str "main") (str "README.md"))
    (rawUrl (str "acme") (str "widgets") (str "main") (str "README.md"))
    1800 (str "text/plain") (str "Error fetching content: ") false
    { status := 404, statusText := str "Not Found", contentType := none, body := [] }
    (by decide) (by decide)).1 (by decide)
  exact h.trans (by decide)

/-- C7 counterexample: a transport failure in the middleware's `/gh/` branch
yields a 500 whose body carries the failure reason but not the original
inbound path, contradicting the claim that every matched path's transport
diagnostic includes the path. -/
theorem c7_transport_counterexample :
    onRequest (fun _ => FetchOutcome.failure (str "boom")) (str "/gh/acme/w/main/a.js")
        = .response { status := 500, headers := [], body := str "Error fetching content: boom" }
            [str "https://raw.githubusercontent.com/acme/w/main/a.js"]
      ∧ containsSub (str "/gh/acme/w/main/a.js") (str "Error fetching content: boom") = false := by
  decide

/-- C7 amended: a transport-level fetch failure always yields status 500
with a body made of the branch error prefix and the failure reason; the
inbound path (and extracted URL) are appended only in the worker's
embedded-URL branch. -/
theorem c7_transport_failure (oracle : Str → FetchOutcome) (path u : Str) (c : Nat)
    (d ep : Str) (ip : Bool) (m : Str) (hup : oracle u = .failure m) :
    (onRequestRoute path = .fetchUrl u c d ep ip →
      onRequest oracle path
        = .response
            { status := 500
              headers := []
              body := ep ++ m ++
                (if ip then str "\nPath: " ++ path ++ str "\nExtracted URL: " ++ u else []) }
            [u])
      ∧ (workerFetchRoute path = .fetchUrl u c d ep ip →
        workerFetch oracle path
          = .response
              { status := 500
                headers := []
                body := ep ++ m ++
                  (if ip then str "\nPath: " ++ path ++ str "\nExtracted URL: " ++ u else []) }
              [u]) := by
  constructor
  · intro hroute
    rw [onRequest_fetch oracle path u c d ep ip hroute,
      relayFetch_failure oracle path u c d ep ip m hup]
  · intro hroute
    rw [workerFetch_fetch oracle path u c d ep ip hroute,
      relayFetch_failure oracle path u c d ep ip m hup]

/-- C7 amended witness: the worker's embedded branch does echo path and
extracted URL in its 500 body. -/
theorem c7_transport_failure_witness :
    workerFetch (fun _ => FetchOutcome.failure (str "boom"))
        (str "/https://raw.githubusercontent.com/u/r/b/f")
      = .response
          { status := 500
            headers := []
            body := str "Error fetching content: boom\nPath: /https://raw.githubusercontent.com/u/r/b/f\nExtracted URL: https://raw.githubusercontent.com/u/r/b/f" }
          [str "https://raw.githubusercontent.com/u/r/b/f"] := by
  have h := (c7_transport_failure (fun _ => FetchOutcome.failure (str "boom"))
    (str "/https://raw.githubusercontent.com/u/r/b/f")
    (str "https://raw.githubusercontent.com/u/r/b/f")
    1800 (str "text/plain") (str "Error fetching content: ") true (str "boom")
    (by decide)).2 (by decide)
  exact h.trans (by decide)

/-- C8: every path of the shape `/releases/{account}/{repo}/download/{rest}`
(account and repo nonempty and slash-free, rest nonempty and carried
verbatim, slashes included; path free of the embedded scheme marker) derives
in both implementations the main-host address
`https://github.com/{account}/{repo}/releases/download/{rest}`, and a
successful upstream response is relayed with
`Cache-Control: public, max-age=86400`. -/
theorem c8_release_download (oracle : Str → FetchOutcome) (u r rest : Str)
    (resp : UpstreamResponse)
    (hu : u ≠ []) (hrne : r ≠ []) (hu2 : '/' ∉ u) (hr2 : '/' ∉ r) (hrest : rest ≠ [])
    (hemb : containsSub (str "/https://") (releasesPath u r rest) = false)
    (hup : oracle (releaseUrl u r rest) = .success resp)
    (hok : responseOk resp = true) :
    onRequestRoute (releasesPath u r rest)
        = .fetchUrl (releaseUrl u r rest) 86400 (str "application/octet-stream")
            (str "Error fetching release content: ") false
      ∧ workerFetchRoute (releasesPath u r rest)
        = .fetchUrl (releaseUrl u r rest) 86400 (str "application/octet-stream")
            (str "Error fetching release content: ") false
      ∧ onRequest oracle (releasesPath u r rest)
        = .response
            { status := 200
              headers := [(str "Content-Type", resp.contentType.getD (str "application/octet-stream")),
                          (str "Cache-Control", str "public, max-age=86400"),
                          (str "Access-Control-Allow-Origin", str "*")]
              body := resp.body }
            [releaseUrl u r rest]
      ∧ workerFetch oracle (releasesPath u r rest)
        = .response
            { status := 200
              headers := [(str "Content-Type", resp.contentType.getD (str "application/octet-stream")),
                          (str "Cache-Control", str "public, max-age=86400"),
                          (str "Access-Control-Allow-Origin", str "*")]
              body := resp.body }
            [releaseUrl u r rest] := by
  have h1 := onRequestRoute_releasesPath u r rest hu hrne hu2 hr2 hrest
  have h2 := workerFetchRoute_releasesPath u r rest hu hrne hu2 hr2 hrest
    (not_contains_marker _ hemb)
  have hcc : str "public, max-age=" ++ str (Nat.repr 86400) = str "public, max-age=86400" := by
    decide
  refine ⟨h1, h2, ?_, ?_⟩
  · rw [onRequest_fetch _ _ _ _ _ _ _ h1,
      relayFetch_ok _ _ _ _ _ _ _ resp hup hok, hcc]
  · rw [workerFetch_fetch _ _ _ _ _ _ _ h2,
      relayFetch_ok _ _ _ _ _ _ _ resp hup hok, hcc]

/-- C8 witness: the spec's own release example with a binary success
upstream response. -/
theorem c8_release_download_witness :
    onRequestRoute (releasesPath (str "acme") (str "widgets") (str "v2.0/app.zip"))
        = .fetchUrl (releaseUrl (str "acme") (str "widgets") (str "v2.0/app.zip"))
            86400 (str "application/octet-stream") (str "Error fetching release content: ") false
      ∧ workerFetchRoute (releasesPath (str "acme") (str "widgets") (str "v2.0/app.zip"))
        = .fetchUrl (releaseUrl (str "acme") (str "widgets") (str "v2.0/app.zip"))
            86400 (str "application/octet-stream") (str "Error fetching release content: ") false
      ∧ onRequest
          (fun _ => FetchOutcome.success
            { status := 200, statusText := str "OK", contentType := none, body := str "zip" })
          (releasesPath (str "acme") (str "widgets") (str "v2.0/app.zip"))
        = .response
            { status := 200
              headers := [(str "Content-Type", str "application/octet-stream"),
                          (str "Cache-Control", str "public, max-age=86400"),
                          (str "Access-Control-Allow-Origin", str "*")]
              body := str "zip" }
            [releaseUrl (str "acme") (str "widgets") (str "v2.0/app.zip")]
      ∧ workerFetch
          (fun _ => FetchOutcome.success
            { status := 200, statusText := str "OK", contentType := none, body := str "zip" })
          (releasesPath (str "acme") (str "widgets") (str "v2.0/app.zip"))
        = .response
            { status := 200
              headers := [(str "Content-Type", str "application/octet-stream"),
                          (str "Cache-Control", str "public, max-age=86400"),
                          (str "Access-Control-Allow-Origin", str "*")]
              body := str "zip" }
            [releaseUrl (str "acme") (str "widgets") (str "v2.0/app.zip")] :=
  c8_release_download
    (fun _ => FetchOutcome.success
      { status := 200, statusText := str "OK", contentType := none, body := str "zip" })
    (str "acme") (str "widgets") (str "v2.0/app.zip")
    { status := 200, statusText := str "OK", contentType := none, body := str "zip" }
    (by decide) (by decide) (by decide) (by decide) (by decide) (by decide)
    (by decide) (by decide)

/-- C9 counterexample: the unmatched path `/nonsense` produces a 400 for
which the code sets no headers at all — in particular no
`Access-Control-Allow-Origin` — so the claim that every response carries the
three headers is false for error responses. -/
theorem c9_headers_counterexample :
    onRequest (fun _ => FetchOutcome.failure []) (str "/nonsense")
        = .response { status := 400, headers := [], body := middlewareUsage } []
      ∧ ¬ (str "Access-Control-Allow-Origin")
          ∈ respHeaderNames (onRequest (fun _ => FetchOutcome.failure []) (str "/nonsense")) := by
  decide

/-- C9 amended: only success relays carry the three headers — Content-Type
equal to the upstream's declared content type when present, else the branch
default (`text/plain` for file-content branches, `application/octet-stream`
for release downloads), `Cache-Control: public, max-age={duration}`, and
`Access-Control-Allow-Origin: *`; upstream-error relays, transport-failure
responses and 400 rejections set no explicit headers. -/
theorem c9_response_headers (oracle : Str → FetchOutcome) (path u : Str) (c : Nat)
    (d ep : Str) (ip : Bool) (resp : UpstreamResponse) :
    (oracle u = .success resp → responseOk resp = true →
      onRequestRoute path = .fetchUrl u c d ep ip →
      onRequest oracle path
        = .response
            { status := 200
              headers := [(str "Content-Type", resp.contentType.getD d),
                          (str "Cache-Control", str "public, max-age=" ++ str (Nat.repr c)),
                          (str "Access-Control-Allow-Origin", str "*")]
              body := resp.body }
            [u])
      ∧ (oracle u = .success resp → responseOk resp = true →
        workerFetchRoute path = .fetchUrl u c d ep ip →
        workerFetch oracle path
          = .response
              { status := 200
                headers := [(str "Content-Type", resp.contentType.getD d),
                            (str "Cache-Control", str "public, max-age=" ++ str (Nat.repr c)),
                            (str "Access-Control-Allow-Origin", str "*")]
                body := resp.body }
              [u])
      ∧ (oracle u = .success resp → responseOk resp = false →
        onRequestRoute path = .fetchUrl u c d ep ip →
        respHeaderNames (onRequest oracle path) = [])
      ∧ (∀ m, oracle u = .failure m →
        onRequestRoute path = .fetchUrl u c d ep ip →
        respHeaderNames (onRequest oracle path) = [])
      ∧ (∀ b, onRequestRoute path = .badRequest b →
        respHeaderNames (onRequest oracle path) = []) := by
  refine ⟨?_, ?_, ?_, ?_, ?_⟩
  · intro hup hok hroute
    rw [onRequest_fetch _ _ _ _ _ _ _ hroute,
      relayFetch_ok _ _ _ _ _ _ _ resp hup hok]
  · intro hup hok hroute
    rw [workerFetch_fetch _ _ _ _ _ _ _ hroute,
      relayFetch_ok _ _ _ _ _ _ _ resp hup hok]
  · intro hup hok hroute
    rw [onRequest_fetch _ _ _ _ _ _ _ hroute,
      relayFetch_notOk _ _ _ _ _ _ _ resp hup hok]
    rfl
  · intro m hup hroute
    rw [onRequest_fetch _ _ _ _ _ _ _ hroute,
      relayFetch_failure _ _ _ _ _ _ _ m hup]
    rfl
  · intro b hroute
    rw [onRequest_badRequest _ _ _ hroute]
    rfl

/-- C9 amended witness: the spec's markdown example on success, and the
header-less behavior of the unmatched 400. -/
theorem c9_response_headers_witness :
    onRequest
        (fun _ => FetchOutcome.success
          { status := 200, statusText := str "OK",
            contentType := some (str "text/markdown"), body := str "hello" })
        (ghPath (str "acme") (str "widgets") (str "main") (str "README.md"))
      = .response
          { status := 200
            headers := [(str "Content-Type",
                          (some (str "text/markdown")).getD (str "text/plain")),
                        (str "Cache-Control", str "public, max-age=" ++ str (Nat.repr 1800)),
                        (str "Access-Control-Allow-Origin", str "*")]
            body := str "hello" }
          [rawUrl (str "acme") (str "widgets") (str "main") (str "README.md")] := by
  have h := (c9_response_headers
    (fun _ => FetchOutcome.success
      { status := 200, statusText := str "OK",
        contentType := some (str "text/markdown"), body := str "hello" })
    (ghPath (str "acme") (str "widgets") (str "main") (str "README.md"))
    (rawUrl (str "acme") (str "widgets") (str "main") (str "README.md"))
    1800 (str "text/plain") (str "Error fetching content: ") false
    { status := 200, statusText := str "OK",
      contentType := some (str "text/markdown"), body := str "hello" }).1
    (by decide) (by decide) (by decide)
  exact h

/-- C10 counterexample: the two implementations route the same inbound
paths differently.  A path with an embedded raw URL after a `/raw/` prefix
is served via the `/raw/` rule by the middleware but via the embedded rule
by the worker, yielding different upstream addresses; and a start-anchored
plain-http raw URL is proxied by the middleware but rejected 400 by the
worker. -/
theorem c10_divergence_counterexample :
    onRequestRoute (str "/raw/a/b/c/https://raw.githubusercontent.com/x")
        = .fetchUrl
            (str "https://raw.githubusercontent.com/a/b/c/https://raw.githubusercontent.com/x")
            1800 (str "text/plain") (str "Error fetching raw content: ") false
      ∧ workerFetchRoute (str "/raw/a/b/c/https://raw.githubusercontent.com/x")
        = .fetchUrl (str "https://raw.githubusercontent.com/x") 1800 (str "text/plain")
            (str "Error fetching content: ") true
      ∧ outcomeOf (onRequestRoute (str "/raw/a/b/c/https://raw.githubusercontent.com/x"))
          ≠ outcomeOf (workerFetchRoute (str "/raw/a/b/c/https://raw.githubusercontent.com/x"))
      ∧ outcomeOf (onRequestRoute (str "/http://raw.githubusercontent.com/a/b"))
          ≠ outcomeOf (workerFetchRoute (str "/http://raw.githubusercontent.com/a/b")) := by
  decide

/-- C10 amended: on every path where the embedded raw-URL marker, if present
at all, sits at the very start, and that does not begin with the plain-http
raw prefix, the two implementations classify identically — same upstream
address, cache duration and default content type, same page-versus-400
outcome.  They diverge exactly on embedded markers that are not at the
start (middleware applies the prefix rules, worker strips to the embedded
URL) and on start-anchored `/http://` raw URLs (middleware proxies, worker
rejects 400). -/
theorem c10_route_equivalence (path : Str)
    (h1 : containsSub (str "/https://raw.githubusercontent.com/") path = true →
      isPre (str "/https://raw.githubusercontent.com/") path = true)
    (h2 : isPre (str "/http://raw.githubusercontent.com/") path = false) :
    outcomeOf (onRequestRoute path) = outcomeOf (workerFetchRoute path) := by
  by_cases hc : containsSub (str "/https://raw.githubusercontent.com/") path = true
  · obtain ⟨t, rfl⟩ := (isPre_iff _ _).1 (h1 hc)
    have hf : findSub (str "/https://") (str "/https://raw.githubusercontent.com/" ++ t)
        = some 0 := by
      have hp : isPre (str "/https://") (str "/https://raw.githubusercontent.com/" ++ t) = true :=
        isPre_append (str "/https://") (str "raw.githubusercontent.com/" ++ t)
      exact findSub_cons_pos _ _ _ hp
    rw [workerFetchRoute_embedded _ 0 hc hf, onRequestRoute_direct t]
    rfl
  · have hcf : containsSub (str "/https://raw.githubusercontent.com/") path = false := by
      cases hb : containsSub (str "/https://raw.githubusercontent.com/") path
      · rfl
      · exact absurd hb hc
    have hd1 : isPre (str "/https://raw.githubusercontent.com/") path = false := by
      cases hb : isPre (str "/https://raw.githubusercontent.com/") path
      · rfl
      · exfalso
        have hcontain := containsSub_of_isPre _ _ hb
        rw [hcf] at hcontain
        exact Bool.false_ne_true hcontain
    by_cases hroot : path = str "/" ∨ path = []
    · rcases hroot with hx | hx
      · subst hx; decide
      · subst hx; decide
    · have hdir := directRoute_none path hd1 h2
      simp only [onRequestRoute, workerFetchRoute]
      rw [if_neg hroot, if_neg (by rw [hcf]; simp)]
      cases hrel : releasesRoute path with
      | some res => rfl
      | none =>
        cases hraw : rawRoute path with
        | some res => rfl
        | none =>
          simp only [hdir]
          cases hgh : ghRoute path with
          | some res => rfl
          | none =>
            rw [if_neg hroot]
            rfl

/-- C10 amended witness: an ordinary short-form path routed identically. -/
theorem c10_route_equivalence_witness :
    outcomeOf (onRequestRoute (str "/gh/a/b/c/d.js"))
      = outcomeOf (workerFetchRoute (str "/gh/a/b/c/d.js")) :=
  c10_route_equivalence (str "/gh/a/b/c/d.js") (by decide) (by decide)

end Cdn
